import Mathlib

/-!
Verification of the humanIL control-loop trainer (`src/components/Game.vue`)
against its natural-language specification.

The whole game logic lives in one Vue single-file component.  We embed it
shallowly: JavaScript numbers are modelled as exact rationals (`ℚ`), the
module-level mutable bindings (`t`, `y1`, `y2`, `integral`, `lastError`,
`score`, `channel1`, `channel2`, the reactive refs and timer handles) become
fields of an explicit `GameState`, and each source function becomes a pure
state-transformer.  Vue's `watch(loop_active, ...)` callback is modelled as
running at the point of assignment whenever the value actually changes,
which matches the observable end state of every handler in the source.
`Math.sin` is transcendental and not representable in exact rational
arithmetic, so it is abstracted as a function parameter `sin : ℚ → ℚ`; all
statements below either hold for every such function or concern the
piecewise-linear waveforms that do not use it.
-/

namespace HumanIL

/-- Truncation toward zero, as JavaScript's implicit truncation in the
semantics of the `%` operator on numbers. -/
def jsTrunc (x : ℚ) : ℤ := if 0 ≤ x then ⌊x⌋ else ⌈x⌉

/-- JavaScript's remainder operator `x % y` on numbers:
`x - y * trunc (x / y)` (sign follows the dividend). -/
def jsMod (x y : ℚ) : ℚ := x - y * jsTrunc (x / y)

/-! ### Constants (Game.vue lines 16–27, 164–183) -/

def loop_ms : ℚ := 50
def display_seconds : ℚ := 10
def timeout_seconds : ℚ := 15
def margin : ℚ := 0.15
def countdown_seconds : ℤ := 3

/-- `Math.floor((display_seconds * 1000) / loop_ms)` (line 22). -/
def listSize : ℕ := (⌊display_seconds * 1000 / loop_ms⌋).toNat

/-- `dt = loop_ms / 1000` (line 25). -/
def dt : ℚ := loop_ms / 1000

/-- `const MODE: 'PT1' | 'PT2' = 'PT2'` (line 165). -/
def MODE : String := "PT2"

def K : ℚ := 1.0
def T : ℚ := 1.0
def D : ℚ := 0.5
def wn : ℚ := 2.0

def Kp : ℚ := 3.28
def Ki : ℚ := 3.38
def Kd : ℚ := 1.48

/-- The plant's mutable bindings `y1` (output) and `y2` (derivative,
used only by the PT2 branch), lines 179–180. -/
structure PlantState where
  y1 : ℚ
  y2 : ℚ
deriving DecidableEq, Repr

/-- The PID controller's mutable bindings `integral` and `lastError`,
lines 182–183. -/
structure CtrlState where
  integral : ℚ
  lastError : ℚ
deriving DecidableEq, Repr

/-- `targetFunction` (lines 186–198).  The selected waveform id is the
string held by the `target_function` ref; `sin` abstracts `Math.sin`. -/
def targetFunction (sin : ℚ → ℚ) (target_function : String) (t : ℚ) : ℚ :=
  let freq : ℚ := 0.4
  if target_function = "1" then
    1 - 4 * |jsMod ((t + 0.25 / freq) * freq / 2) 1 - 0.5|
  else if target_function = "2" then
    2 * jsMod ((t + 0.25 / freq) * freq) 1 - 1
  else if target_function = "3" then
    sin (0.3 * t) + 0.3 * sin (2 * t)
  else
    sin (0.3 * t)

/-- `controller` (lines 201–210): returns the PID output together with the
updated `{integral, lastError}` state (the source mutates the two module
bindings exactly once each). -/
def controller (c : CtrlState) (target actual : ℚ) : ℚ × CtrlState :=
  let error := target - actual
  let integral := c.integral + error * dt
  let derivative := (error - c.lastError) / dt
  let u := Kp * error + Ki * integral + Kd * derivative
  (u, { integral := integral, lastError := error })

/-- `updateSystem` (lines 212–223): one fixed-step plant update, returning
the new `y1` together with the updated plant state.  In the PT2 branch the
`y1` read by the `y2` update is the already-updated `y1`, while the `y2`
read on the right-hand side is the old `y2`, exactly as in the source. -/
def updateSystem (p : PlantState) (u : ℚ) : ℚ × PlantState :=
  if MODE = "PT1" then
    let y1 := p.y1 + dt / T * (K * u - p.y1)
    (y1, { p with y1 := y1 })
  else
    let y1 := p.y1 + dt * p.y2
    let y2 := p.y2 + dt * (wn * wn * (K * u - y1) - 2 * D * wn * p.y2)
    (y1, { y1 := y1, y2 := y2 })

/-! ### Time vector and rolling buffer (lines 22–31, 47–57) -/

/-- `timeVector` (lines 26–27): built once at module initialization, then
its last entry is overwritten with `0`. -/
def timeVector : List ℚ :=
  let v := (List.range listSize).map fun i : ℕ => -display_seconds + (i : ℚ) * dt
  v.set (v.length - 1) 0

/-- One channel update inside `addValues` (lines 49–54): push the new
sample, then `shift` (drop the oldest element) once the length exceeds
`listSize`.  A list element `none` is the `NaN` "no value" sentinel the
source fills the channels with; real samples are `some v`. -/
def pushShift (c : List (Option ℚ)) (v : ℚ) : List (Option ℚ) :=
  let c := c ++ [some v]
  if listSize < c.length then c.tail else c

theorem listSize_eq : listSize = 200 := by
  norm_num [listSize, display_seconds, loop_ms]
  rfl

theorem dt_eq : dt = 0.05 := by norm_num [dt, loop_ms]

/-! ### Claim C5: PID controller step -/

/-- Claim C5: one controller invocation with fixed `dt = 0.05` computes
`error = target − measured`, adds `error·dt` to the integral state with no
clamping, computes the derivative from the previous invocation's error,
stores the new error as `lastError`, and returns
`Kp·error + Ki·integral + Kd·derivative` with
`Kp = 3.28`, `Ki = 3.38`, `Kd = 1.48`, producing exactly one updated
controller state. -/
theorem controller_step_correct (c : CtrlState) (target measured : ℚ) :
    controller c target measured =
      (3.28 * (target - measured)
        + 3.38 * (c.integral + (target - measured) * 0.05)
        + 1.48 * ((target - measured - c.lastError) / 0.05),
       { integral := c.integral + (target - measured) * 0.05,
         lastError := target - measured })
    ∧ dt = 0.05 ∧ Kp = 3.28 ∧ Ki = 3.38 ∧ Kd = 1.48 := by
  refine ⟨?_, by norm_num [dt, loop_ms], by norm_num [Kp], by norm_num [Ki],
    by norm_num [Kd]⟩
  simp only [controller, Kp, Ki, Kd, dt_eq]

/-! ### Claim C6: PT2 plant step -/

/-- Claim C6: in the default second-order (PT2) mode, one plant step with
input `u` and `dt = 0.05` first updates `y1` using the old `y2`, then
updates `y2` using the already-updated `y1` and the old `y2`, with
`K = 1.0`, `D = 0.5`, `wn = 2.0`, returning the new `y1`; the step is a
pure function, so the same `(PlantState, u)` always yields the identical
next state. -/
theorem updateSystem_pt2_correct (p : PlantState) (u : ℚ) :
    MODE = "PT2"
    ∧ updateSystem p u =
        (p.y1 + 0.05 * p.y2,
         { y1 := p.y1 + 0.05 * p.y2,
           y2 := p.y2 + 0.05 * (2 * 2 * (1 * u - (p.y1 + 0.05 * p.y2))
                    - 2 * 0.5 * 2 * p.y2) })
    ∧ K = 1 ∧ D = 0.5 ∧ wn = 2 ∧ dt = 0.05
    ∧ (∀ (q : PlantState) (v : ℚ), q = p → v = u →
        updateSystem q v = updateSystem p u) := by
  refine ⟨rfl, ?_, by norm_num [K], by norm_num [D], by norm_num [wn],
    by norm_num [dt, loop_ms], ?_⟩
  · simp only [updateSystem]
    rw [if_neg (by decide)]
    simp only [K, D, wn, dt_eq]
    norm_num
  · rintro q v rfl rfl
    rfl

/-- Witness for C6 at a concrete plant state and input. -/
theorem updateSystem_pt2_correct_witness :
    updateSystem ⟨1, 2⟩ 3 = updateSystem ⟨1, 2⟩ 3 :=
  (updateSystem_pt2_correct ⟨1, 2⟩ 3).2.2.2.2.2.2 ⟨1, 2⟩ 3 rfl rfl

/-! ### The session state machine (lines 59–78, 139–162, 225–297) -/

/-- All module-level mutable state of `Game.vue`: the reactive refs
(`loop_active`, `userInput`, `game_mode`, `target_function`, `score`,
`countdown`, `finished`), the plain bindings (`aborted`, `t`, `y1`, `y2`,
`integral`, `lastError`, `channel1`, `channel2`) and the two timer handles,
modelled as booleans recording whether the handle is non-null
(`intervalId`, line 60; `countdownTimer`, line 225). -/
structure GameState where
  loop_active : Bool
  intervalId : Bool
  userInput : ℚ
  game_mode : String
  target_function : String
  score : ℕ
  countdown : ℤ
  finished : Bool
  aborted : Bool
  countdownTimer : Bool
  channel1 : List (Option ℚ)
  channel2 : List (Option ℚ)
  t : ℚ
  y1 : ℚ
  y2 : ℚ
  integral : ℚ
  lastError : ℚ
deriving DecidableEq, Repr

/-- Assignment to `loop_active.value` together with the
`watch(loop_active, ...)` callback (lines 63–78).  Vue only fires the
watcher when the value actually changes; on `true` it registers the game
interval, on `false` it clears the interval and, unless `aborted` was set,
marks the run `finished`, then clears `aborted`. -/
def setLoopActive (b : Bool) (s : GameState) : GameState :=
  if s.loop_active = b then s
  else if b then { s with loop_active := true, intervalId := true }
  else if s.intervalId then
    { s with loop_active := false, intervalId := false,
             finished := if !s.aborted then true else s.finished,
             aborted := false }
  else { s with loop_active := false }

/-- `addValues` (lines 47–57): append one sample to each channel, dropping
each channel's oldest entry once it exceeds `listSize`.  (The chart update
call has no model state.) -/
def addValues (value1 value2 : ℚ) (s : GameState) : GameState :=
  { s with channel1 := pushShift s.channel1 value1,
           channel2 := pushShift s.channel2 value2 }

/-- `reset` (lines 147–162), in source order: zero `score` and `userInput`,
set `aborted` when a run is active, drop `loop_active` (firing the watch),
clear `finished`, refill both channels with the `NaN` sentinel, and zero
`t`, the plant state and the controller state. -/
def reset (s : GameState) : GameState :=
  let s := { s with score := 0, userInput := 0 }
  let s := if s.loop_active then { s with aborted := true } else s
  let s := setLoopActive false s
  let s := { s with finished := false }
  { s with channel1 := List.replicate listSize none,
           channel2 := List.replicate listSize none,
           t := 0, y1 := 0, y2 := 0, integral := 0, lastError := 0 }

/-- `startStop` (lines 226–261): stop when running; start immediately for
`closedL-auto`; cancel a pending countdown; otherwise begin the 3-second
countdown. -/
def startStop (s : GameState) : GameState :=
  if s.loop_active then setLoopActive false s
  else if s.game_mode = "closedL-auto" then setLoopActive true s
  else if s.countdownTimer then
    setLoopActive false { s with countdownTimer := false, countdown := -1 }
  else
    { setLoopActive false { s with countdown := countdown_seconds } with
        countdownTimer := true }

/-- The countdown interval callback registered by `startStop`
(lines 251–260): decrement, and at zero clear the countdown timer and set
`loop_active`. -/
def countdownTick (s : GameState) : GameState :=
  if s.countdownTimer then
    let s := { s with countdown := s.countdown - 1 }
    if s.countdown ≤ 0 then
      setLoopActive true { s with countdownTimer := false, countdown := -1 }
    else s
  else s

/-- First half of `gameLoop` (lines 264–271): read the target from the
signal generator at the current `t`, advance `t` by `dt`, and stop the run
once `t` has reached `timeout_seconds`. -/
def tickPre (s : GameState) : GameState :=
  let s := { s with t := s.t + dt }
  if timeout_seconds ≤ s.t then setLoopActive false s else s

/-- `gameLoop` up to the plant update (lines 263–288): mode wiring and the
plant step, returning `(target, output, state)`.  The target is sampled at
the pre-increment `t` (line 265 precedes line 266). -/
def tickCore (sin : ℚ → ℚ) (s : GameState) : ℚ × ℚ × GameState :=
  let target0 := targetFunction sin s.target_function s.t
  let s2 := tickPre s
  let itc : ℚ × ℚ × GameState :=
    if s2.game_mode = "humanil" ∨ s2.game_mode = "openL" then
      (s2.userInput / 100,
       if s2.game_mode = "openL" then s2.userInput / 100 else target0, s2)
    else if s2.game_mode = "closedL" ∨ s2.game_mode = "closedL-auto" then
      let target1 := if s2.game_mode = "closedL" then s2.userInput / 100
                     else target0
      let uc := controller { integral := s2.integral,
                             lastError := s2.lastError } target1 s2.y1
      (uc.1, target1,
       { s2 with integral := uc.2.integral, lastError := uc.2.lastError })
    else (0, target0, s2)
  let op := updateSystem { y1 := itc.2.2.y1, y2 := itc.2.2.y2 } itc.1
  (itc.2.1, op.1, { itc.2.2 with y1 := op.2.y1, y2 := op.2.y2 })

/-- `gameLoop` (lines 263–297): core step, then the scoring rule
(lines 291–294), then `addValues(target, output)` (line 296). -/
def gameLoop (sin : ℚ → ℚ) (s : GameState) : GameState :=
  let r := tickCore sin s
  let s1 := r.2.2
  let s2 :=
    if s1.game_mode = "humanil" ∨ s1.game_mode = "closedL-auto" then
      if |r.1 - r.2.1| < margin then { s1 with score := s1.score + 1 } else s1
    else s1
  addValues r.1 r.2.1 s2

/-- One firing opportunity of the scheduler (lines 66–68): the interval
callback runs `gameLoop` exactly when the interval is registered; once it
has been cleared no further callback runs. -/
def tick (sin : ℚ → ℚ) (s : GameState) : GameState :=
  if s.intervalId then gameLoop sin s else s

/-- The events the presentation boundary can deliver to the component:
button presses, timer firings, and the input controls.  The `set*` guards
mirror the template's `:disabled` bindings (lines 319–355). -/
inductive Event where
  | pressStartStop
  | pressReset
  | timerTick
  | cdTimerTick
  | setInput (v : ℚ)
  | setMode (m : String)
  | setTargetFn (f : String)

/-- Dispatch one boundary event to the component. -/
def applyEvent (sin : ℚ → ℚ) (e : Event) (s : GameState) : GameState :=
  match e with
  | .pressStartStop => startStop s
  | .pressReset => reset s
  | .timerTick => tick sin s
  | .cdTimerTick => countdownTick s
  | .setInput v =>
      if s.game_mode = "closedL-auto" then s else { s with userInput := v }
  | .setMode m => if s.loop_active then s else { s with game_mode := m }
  | .setTargetFn f =>
      if s.loop_active ∨ s.game_mode = "openL" ∨ s.game_mode = "closedL"
      then s else { s with target_function := f }

/-- The component's state right after module initialization
(lines 30–31, 59–60, 139–145, 177–183, 225). -/
def init : GameState :=
  { loop_active := false, intervalId := false, userInput := 0,
    game_mode := "humanil", target_function := "1", score := 0,
    countdown := -1, finished := false, aborted := false,
    countdownTimer := false,
    channel1 := List.replicate listSize none,
    channel2 := List.replicate listSize none,
    t := 0, y1 := 0, y2 := 0, integral := 0, lastError := 0 }

/-- The START button is enabled exactly when the run is not `finished`
(template line 311, `:disabled="finished"`). -/
def startEnabled (s : GameState) : Bool := !s.finished

/-! ### Helper lemmas: field projections -/

@[simp] theorem setLoopActive_userInput (b : Bool) (s : GameState) :
    (setLoopActive b s).userInput = s.userInput := by
  unfold setLoopActive; split_ifs <;> rfl

@[simp] theorem setLoopActive_game_mode (b : Bool) (s : GameState) :
    (setLoopActive b s).game_mode = s.game_mode := by
  unfold setLoopActive; split_ifs <;> rfl

@[simp] theorem setLoopActive_target_fn (b : Bool) (s : GameState) :
    (setLoopActive b s).target_function = s.target_function := by
  unfold setLoopActive; split_ifs <;> rfl

@[simp] theorem setLoopActive_score (b : Bool) (s : GameState) :
    (setLoopActive b s).score = s.score := by
  unfold setLoopActive; split_ifs <;> rfl

@[simp] theorem setLoopActive_countdown (b : Bool) (s : GameState) :
    (setLoopActive b s).countdown = s.countdown := by
  unfold setLoopActive; split_ifs <;> rfl

@[simp] theorem setLoopActive_cdTimer (b : Bool) (s : GameState) :
    (setLoopActive b s).countdownTimer = s.countdownTimer := by
  unfold setLoopActive; split_ifs <;> rfl

@[simp] theorem setLoopActive_t (b : Bool) (s : GameState) :
    (setLoopActive b s).t = s.t := by
  unfold setLoopActive; split_ifs <;> rfl

@[simp] theorem setLoopActive_y1 (b : Bool) (s : GameState) :
    (setLoopActive b s).y1 = s.y1 := by
  unfold setLoopActive; split_ifs <;> rfl

@[simp] theorem setLoopActive_y2 (b : Bool) (s : GameState) :
    (setLoopActive b s).y2 = s.y2 := by
  unfold setLoopActive; split_ifs <;> rfl

@[simp] theorem setLoopActive_integral (b : Bool) (s : GameState) :
    (setLoopActive b s).integral = s.integral := by
  unfold setLoopActive; split_ifs <;> rfl

@[simp] theorem setLoopActive_lastError (b : Bool) (s : GameState) :
    (setLoopActive b s).lastError = s.lastError := by
  unfold setLoopActive; split_ifs <;> rfl

@[simp] theorem setLoopActive_channel1 (b : Bool) (s : GameState) :
    (setLoopActive b s).channel1 = s.channel1 := by
  unfold setLoopActive; split_ifs <;> rfl

@[simp] theorem setLoopActive_channel2 (b : Bool) (s : GameState) :
    (setLoopActive b s).channel2 = s.channel2 := by
  unfold setLoopActive; split_ifs <;> rfl

@[simp] theorem setLoopActive_false_loop (s : GameState) :
    (setLoopActive false s).loop_active = false := by
  unfold setLoopActive
  split_ifs with h1 <;> simp_all

@[simp] theorem setLoopActive_true_loop (s : GameState) :
    (setLoopActive true s).loop_active = true := by
  unfold setLoopActive
  split_ifs with h1 <;> simp_all

theorem setLoopActive_noop (b : Bool) (s : GameState) (h : s.loop_active = b) :
    setLoopActive b s = s := by
  unfold setLoopActive; rw [if_pos h]

theorem setLoopActive_stop (s : GameState) (hla : s.loop_active = true)
    (hii : s.intervalId = true) :
    setLoopActive false s =
      { s with loop_active := false, intervalId := false,
               finished := if !s.aborted then true else s.finished,
               aborted := false } := by
  unfold setLoopActive
  rw [if_neg (by simp [hla]), if_neg (by simp)]
  simp only [hii, if_pos]

theorem setLoopActive_start (s : GameState) (hla : s.loop_active = false) :
    setLoopActive true s = { s with loop_active := true, intervalId := true } := by
  unfold setLoopActive
  rw [if_neg (by simp [hla]), if_pos rfl]

/-- `tickPre` written out: `rfl`-equal reformulation used by the proofs. -/
theorem tickPre_char (s : GameState) :
    tickPre s =
      if timeout_seconds ≤ s.t + dt
      then setLoopActive false { s with t := s.t + dt }
      else { s with t := s.t + dt } := rfl

@[simp] theorem tickPre_t (s : GameState) : (tickPre s).t = s.t + dt := by
  rw [tickPre_char]; split_ifs <;> simp

@[simp] theorem tickPre_game_mode (s : GameState) :
    (tickPre s).game_mode = s.game_mode := by
  rw [tickPre_char]; split_ifs <;> simp

@[simp] theorem tickPre_target_fn (s : GameState) :
    (tickPre s).target_function = s.target_function := by
  rw [tickPre_char]; split_ifs <;> simp

@[simp] theorem tickPre_userInput (s : GameState) :
    (tickPre s).userInput = s.userInput := by
  rw [tickPre_char]; split_ifs <;> simp

@[simp] theorem tickPre_score (s : GameState) : (tickPre s).score = s.score := by
  rw [tickPre_char]; split_ifs <;> simp

@[simp] theorem tickPre_countdown (s : GameState) :
    (tickPre s).countdown = s.countdown := by
  rw [tickPre_char]; split_ifs <;> simp

@[simp] theorem tickPre_cdTimer (s : GameState) :
    (tickPre s).countdownTimer = s.countdownTimer := by
  rw [tickPre_char]; split_ifs <;> simp

@[simp] theorem tickPre_y1 (s : GameState) : (tickPre s).y1 = s.y1 := by
  rw [tickPre_char]; split_ifs <;> simp

@[simp] theorem tickPre_y2 (s : GameState) : (tickPre s).y2 = s.y2 := by
  rw [tickPre_char]; split_ifs <;> simp

@[simp] theorem tickPre_integral (s : GameState) :
    (tickPre s).integral = s.integral := by
  rw [tickPre_char]; split_ifs <;> simp

@[simp] theorem tickPre_lastError (s : GameState) :
    (tickPre s).lastError = s.lastError := by
  rw [tickPre_char]; split_ifs <;> simp

@[simp] theorem tickPre_channel1 (s : GameState) :
    (tickPre s).channel1 = s.channel1 := by
  rw [tickPre_char]; split_ifs <;> simp

@[simp] theorem tickPre_channel2 (s : GameState) :
    (tickPre s).channel2 = s.channel2 := by
  rw [tickPre_char]; split_ifs <;> simp

@[simp] theorem tickCore_loop_active (sin : ℚ → ℚ) (s : GameState) :
    (tickCore sin s).2.2.loop_active = (tickPre s).loop_active := by
  unfold tickCore; dsimp only; split_ifs <;> rfl

@[simp] theorem tickCore_intervalId (sin : ℚ → ℚ) (s : GameState) :
    (tickCore sin s).2.2.intervalId = (tickPre s).intervalId := by
  unfold tickCore; dsimp only; split_ifs <;> rfl

@[simp] theorem tickCore_finished (sin : ℚ → ℚ) (s : GameState) :
    (tickCore sin s).2.2.finished = (tickPre s).finished := by
  unfold tickCore; dsimp only; split_ifs <;> rfl

@[simp] theorem tickCore_aborted (sin : ℚ → ℚ) (s : GameState) :
    (tickCore sin s).2.2.aborted = (tickPre s).aborted := by
  unfold tickCore; dsimp only; split_ifs <;> rfl

@[simp] theorem tickCore_t (sin : ℚ → ℚ) (s : GameState) :
    (tickCore sin s).2.2.t = s.t + dt := by
  unfold tickCore; dsimp only; split_ifs <;> simp

@[simp] theorem tickCore_game_mode (sin : ℚ → ℚ) (s : GameState) :
    (tickCore sin s).2.2.game_mode = s.game_mode := by
  unfold tickCore; dsimp only; split_ifs <;> simp

@[simp] theorem tickCore_target_fn (sin : ℚ → ℚ) (s : GameState) :
    (tickCore sin s).2.2.target_function = s.target_function := by
  unfold tickCore; dsimp only; split_ifs <;> simp

@[simp] theorem tickCore_userInput (sin : ℚ → ℚ) (s : GameState) :
    (tickCore sin s).2.2.userInput = s.userInput := by
  unfold tickCore; dsimp only; split_ifs <;> simp

@[simp] theorem tickCore_score (sin : ℚ → ℚ) (s : GameState) :
    (tickCore sin s).2.2.score = s.score := by
  unfold tickCore; dsimp only; split_ifs <;> simp

@[simp] theorem tickCore_countdown (sin : ℚ → ℚ) (s : GameState) :
    (tickCore sin s).2.2.countdown = s.countdown := by
  unfold tickCore; dsimp only; split_ifs <;> simp

@[simp] theorem tickCore_cdTimer (sin : ℚ → ℚ) (s : GameState) :
    (tickCore sin s).2.2.countdownTimer = s.countdownTimer := by
  unfold tickCore; dsimp only; split_ifs <;> simp

@[simp] theorem tickCore_channel1 (sin : ℚ → ℚ) (s : GameState) :
    (tickCore sin s).2.2.channel1 = s.channel1 := by
  unfold tickCore; dsimp only; split_ifs <;> simp

@[simp] theorem tickCore_channel2 (sin : ℚ → ℚ) (s : GameState) :
    (tickCore sin s).2.2.channel2 = s.channel2 := by
  unfold tickCore; dsimp only; split_ifs <;> simp

theorem gameLoop_loop_active (sin : ℚ → ℚ) (s : GameState) :
    (gameLoop sin s).loop_active = (tickPre s).loop_active := by
  unfold gameLoop addValues
  dsimp only
  split_ifs <;> simp

theorem gameLoop_intervalId (sin : ℚ → ℚ) (s : GameState) :
    (gameLoop sin s).intervalId = (tickPre s).intervalId := by
  unfold gameLoop addValues
  dsimp only
  split_ifs <;> simp

theorem gameLoop_finished (sin : ℚ → ℚ) (s : GameState) :
    (gameLoop sin s).finished = (tickPre s).finished := by
  unfold gameLoop addValues
  dsimp only
  split_ifs <;> simp

theorem gameLoop_aborted (sin : ℚ → ℚ) (s : GameState) :
    (gameLoop sin s).aborted = (tickPre s).aborted := by
  unfold gameLoop addValues
  dsimp only
  split_ifs <;> simp

theorem gameLoop_t (sin : ℚ → ℚ) (s : GameState) :
    (gameLoop sin s).t = s.t + dt := by
  unfold gameLoop addValues
  dsimp only
  split_ifs <;> simp

theorem gameLoop_game_mode (sin : ℚ → ℚ) (s : GameState) :
    (gameLoop sin s).game_mode = s.game_mode := by
  unfold gameLoop addValues
  dsimp only
  split_ifs <;> simp

theorem gameLoop_cdTimer (sin : ℚ → ℚ) (s : GameState) :
    (gameLoop sin s).countdownTimer = s.countdownTimer := by
  unfold gameLoop addValues
  dsimp only
  split_ifs <;> simp

theorem gameLoop_score_char (sin : ℚ → ℚ) (s : GameState) :
    (gameLoop sin s).score =
      if (s.game_mode = "humanil" ∨ s.game_mode = "closedL-auto")
          ∧ |(tickCore sin s).1 - (tickCore sin s).2.1| < margin
      then s.score + 1 else s.score := by
  have hm := tickCore_game_mode sin s
  have hs := tickCore_score sin s
  unfold gameLoop addValues
  dsimp only
  simp only [hm]
  split_ifs <;> simp_all

/-! ### Rolling-buffer lemmas -/

theorem pushShift_length (c : List (Option ℚ)) (v : ℚ) :
    (pushShift c v).length =
      if listSize < c.length + 1 then c.length else c.length + 1 := by
  unfold pushShift
  dsimp only
  simp only [List.length_append, List.length_singleton]
  split_ifs with h <;> simp

theorem pushShift_full (c : List (Option ℚ)) (v : ℚ) (h : c.length = listSize) :
    pushShift c v = (c ++ [some v]).drop 1 := by
  unfold pushShift
  rw [if_pos (by simp [h]), List.drop_one]

theorem foldl_pushShift_full (vs : List ℚ) :
    ∀ c : List (Option ℚ), c.length = listSize →
      vs.foldl pushShift c = (c ++ vs.map some).drop vs.length := by
  induction vs with
  | nil => intro c _; simp
  | cons v vs ih =>
    intro c hc
    have hfull := pushShift_full c v hc
    have hlen : (pushShift c v).length = listSize := by
      rw [hfull]
      simp [hc]
    have hsplit : (c ++ [some v]).drop 1 ++ vs.map some
        = ((c ++ [some v]) ++ vs.map some).drop 1 :=
      (List.drop_append_of_le_length (by simp)).symm
    rw [List.foldl_cons, ih _ hlen, hfull, hsplit, List.drop_drop]
    simp [List.append_assoc, Nat.add_comm]

/-- Claim C7: both rolling-buffer series always have the same length and
never exceed capacity `N = listSize = 200`; starting from the reset state,
after `N + k` appends each series equals the last `N` appended values in
order (oldest evicted first); and `reset` restores both series to length
`N` filled entirely with the no-value sentinel. -/
theorem rollingBuffer_props :
    (∀ (s : GameState) (v1 v2 : ℚ), s.channel1.length = s.channel2.length →
      (addValues v1 v2 s).channel1.length = (addValues v1 v2 s).channel2.length)
    ∧ (∀ (c : List (Option ℚ)) (v : ℚ), c.length ≤ listSize →
        (pushShift c v).length ≤ listSize)
    ∧ (∀ vs : List ℚ, listSize ≤ vs.length →
        vs.foldl pushShift (List.replicate listSize none)
          = (vs.drop (vs.length - listSize)).map some)
    ∧ (∀ s : GameState,
        (reset s).channel1 = List.replicate listSize none
        ∧ (reset s).channel2 = List.replicate listSize none
        ∧ (List.replicate listSize (none : Option ℚ)).length = listSize)
    ∧ listSize = 200 := by
  refine ⟨?_, ?_, ?_, ?_, listSize_eq⟩
  · intro s v1 v2 h
    simp [addValues, pushShift_length, h]
  · intro c v h
    rw [pushShift_length]
    split_ifs <;> omega
  · intro vs h
    rw [foldl_pushShift_full vs _ (by simp)]
    have hsplit : vs.length = (List.replicate listSize (none : Option ℚ)).length
        + (vs.length - listSize) := by simp; omega
    conv_lhs => rw [hsplit]
    rw [List.drop_append, List.map_drop]
  · intro s
    exact ⟨rfl, rfl, by simp⟩

/-- Witness for C7 at a concrete buffer run of exactly `N` appends. -/
theorem rollingBuffer_props_witness :
    (List.replicate listSize (7 : ℚ)).foldl pushShift
        (List.replicate listSize none)
      = ((List.replicate listSize (7 : ℚ)).drop
          ((List.replicate listSize (7 : ℚ)).length - listSize)).map some :=
  rollingBuffer_props.2.2.1 _ (by simp)

/-! ### Claim C10: stopping and starting preserve the simulation state -/

/-- The simulation state the spec's frame condition talks about: clock,
plant, controller, score and buffer contents. -/
def simOf (s : GameState) :
    ℚ × ℚ × ℚ × ℚ × ℚ × ℕ × List (Option ℚ) × List (Option ℚ) :=
  (s.t, s.y1, s.y2, s.integral, s.lastError, s.score, s.channel1, s.channel2)

/-- Claim C10: stopping a run (user Stop or timeout, i.e. any assignment of
the running flag and in particular the `startStop` stop branch), a Start
press, and a countdown tick all leave the clock `t`, the plant state, the
controller state, the score and both buffer series unchanged; only `reset`
clears them, and a tick continues from the previous `t` (the clock is
advanced by `dt` from whatever value it held). -/
theorem stop_frame_props (sin : ℚ → ℚ) (b : Bool) (s : GameState) :
    simOf (setLoopActive b s) = simOf s
    ∧ simOf (startStop s) = simOf s
    ∧ simOf (countdownTick s) = simOf s
    ∧ simOf (reset s) =
        (0, 0, 0, 0, 0, 0, List.replicate listSize none,
         List.replicate listSize none)
    ∧ (gameLoop sin s).t = s.t + dt := by
  refine ⟨by simp [simOf], ?_, ?_, ?_, gameLoop_t sin s⟩
  · unfold startStop
    dsimp only
    split_ifs <;> simp [simOf]
  · unfold countdownTick
    dsimp only
    split_ifs <;> simp [simOf]
  · unfold reset
    dsimp only
    split_ifs <;> simp [simOf]

/-! ### Claim C1: user-triggered Stop -/

/-- A reachable running session: Start pressed from the initial state in
`humanil` mode, then the three countdown seconds elapse. -/
def runningState : GameState :=
  countdownTick (countdownTick (countdownTick (startStop init)))

/-- Counterexample to claim C1 as stated: from a reachable running state
(`loop_active`, interval registered, `finished` still false), a Start/Stop
press sets the `finished` flag — the run is not marked Aborted-without-
Finished, and START is disabled afterwards, contradicting "the finished
flag is not set, so Start remains enabled afterwards without a Reset". -/
theorem userStop_claim_counterexample :
    runningState.loop_active = true
    ∧ runningState.finished = false
    ∧ (startStop runningState).finished = true
    ∧ startEnabled (startStop runningState) = false := by
  refine ⟨by decide, by decide, by decide, by decide⟩

/-- Claim C1 (amended): for every user-triggered Stop (a Start/Stop press
while the run loop is active, with the interval registered and no pending
abort), the session transitions to Idle and the `finished` flag IS set —
the stop is handled exactly like a finished run — so Start is disabled
until a Reset. -/
theorem userStop_sets_finished (s : GameState) (hla : s.loop_active = true)
    (hii : s.intervalId = true) (hab : s.aborted = false) :
    (startStop s).loop_active = false
    ∧ (startStop s).intervalId = false
    ∧ (startStop s).finished = true
    ∧ startEnabled (startStop s) = false
    ∧ (startStop s).countdownTimer = s.countdownTimer := by
  unfold startStop
  rw [if_pos hla, setLoopActive_stop s hla hii]
  simp [startEnabled, hab]

/-- Witness for C1 (amended) at the reachable running state. -/
theorem userStop_sets_finished_witness :
    (startStop runningState).finished = true :=
  (userStop_sets_finished runningState (by decide) (by decide)
    (by decide)).2.2.1

/-! ### Claim C2: Reset -/

theorem reset_loop_active (s : GameState) : (reset s).loop_active = false := by
  unfold reset
  dsimp only
  split_ifs <;> simp

theorem reset_cdTimer (s : GameState) :
    (reset s).countdownTimer = s.countdownTimer := by
  unfold reset
  dsimp only
  split_ifs <;> simp

theorem gameLoop_keeps_stopped (sin : ℚ → ℚ) (s : GameState)
    (h : s.loop_active = false) : (gameLoop sin s).loop_active = false := by
  rw [gameLoop_loop_active, tickPre_char]
  split_ifs <;> simp [h]

/-- Any event other than a Start/Stop press keeps a stopped,
countdown-free session stopped and countdown-free. -/
theorem applyEvent_no_start (sin : ℚ → ℚ) (e : Event) (s : GameState)
    (he : e ≠ Event.pressStartStop)
    (h1 : s.loop_active = false) (h2 : s.countdownTimer = false) :
    (applyEvent sin e s).loop_active = false
    ∧ (applyEvent sin e s).countdownTimer = false := by
  cases e with
  | pressStartStop => exact absurd rfl he
  | pressReset =>
      simp only [applyEvent]
      exact ⟨reset_loop_active s, by rw [reset_cdTimer]; exact h2⟩
  | timerTick =>
      simp only [applyEvent]
      unfold tick
      split_ifs with hi
      · exact ⟨gameLoop_keeps_stopped sin s h1, by rw [gameLoop_cdTimer]; exact h2⟩
      · exact ⟨h1, h2⟩
  | cdTimerTick =>
      simp only [applyEvent]
      unfold countdownTick
      rw [if_neg (by simp [h2])]
      exact ⟨h1, h2⟩
  | setInput v =>
      unfold applyEvent
      split_ifs <;> exact ⟨h1, h2⟩
  | setMode m =>
      unfold applyEvent
      split_ifs <;> exact ⟨h1, h2⟩
  | setTargetFn f =>
      unfold applyEvent
      split_ifs <;> exact ⟨h1, h2⟩

/-- A stopped, countdown-free session never becomes Running under any
sequence of events that contains no Start/Stop press. -/
theorem noStart_trace (sin : ℚ → ℚ) :
    ∀ (es : List Event) (s : GameState),
      (∀ e ∈ es, e ≠ Event.pressStartStop) →
      s.loop_active = false → s.countdownTimer = false →
      (es.foldl (fun st e => applyEvent sin e st) s).loop_active = false := by
  intro es
  induction es with
  | nil => intro s _ h1 _; simpa using h1
  | cons e es ih =>
    intro s hes h1 h2
    have h := applyEvent_no_start sin e s (hes e (by simp)) h1 h2
    exact ih _ (fun e' he' => hes e' (by simp [he'])) h.1 h.2

/-- Counterexample to claim C2 as stated: press Start in `humanil` mode
(countdown begins), then Reset while CountingDown.  Reset leaves the
session Idle, but it does not cancel the countdown timer; three countdown
ticks later the session is Running although no Start was pressed after the
Reset — refuting "after a Reset the session never enters Running without a
new Start press". -/
theorem reset_countdown_counterexample :
    (reset (startStop init)).loop_active = false
    ∧ (reset (startStop init)).countdownTimer = true
    ∧ (countdownTick (countdownTick (countdownTick
        (reset (startStop init))))).loop_active = true := by
  refine ⟨by decide, by decide, by decide⟩

/-- Claim C2 (amended): Reset stops any active run without setting
Finished, zeroes Score, the user-input value, the clock `t`, the plant
state `(y1, y2)` and the controller state `(integral, lastError)`, fills
both buffer series with sentinels, and leaves the session in Idle with
Finished cleared.  Provided no countdown is pending at the Reset, the
session never enters Running again without a new Start press; a pending
countdown, however, is NOT cancelled by Reset and will start the run when
it expires. -/
theorem reset_state_correct (sin : ℚ → ℚ) (s : GameState) (es : List Event)
    (hes : ∀ e ∈ es, e ≠ Event.pressStartStop) :
    (reset s).score = 0 ∧ (reset s).userInput = 0 ∧ (reset s).t = 0
    ∧ (reset s).y1 = 0 ∧ (reset s).y2 = 0
    ∧ (reset s).integral = 0 ∧ (reset s).lastError = 0
    ∧ (reset s).channel1 = List.replicate listSize none
    ∧ (reset s).channel2 = List.replicate listSize none
    ∧ (reset s).loop_active = false ∧ (reset s).finished = false
    ∧ (s.countdownTimer = false →
        (es.foldl (fun st e => applyEvent sin e st) (reset s)).loop_active
          = false) := by
  refine ⟨?_, ?_, rfl, rfl, rfl, rfl, rfl, rfl, rfl, reset_loop_active s, rfl,
    fun hcd => noStart_trace sin es (reset s) hes (reset_loop_active s)
      (by rw [reset_cdTimer]; exact hcd)⟩
  · unfold reset
    dsimp only
    split_ifs <;> simp
  · unfold reset
    dsimp only
    split_ifs <;> simp

/-- Witness for C2 (amended) at the initial state and the empty trace. -/
theorem reset_state_correct_witness :
    (([] : List Event).foldl (fun st e => applyEvent (fun _ => 0) e st)
        (reset init)).loop_active = false :=
  (reset_state_correct (fun _ => 0) init []
    (by simp)).2.2.2.2.2.2.2.2.2.2.2 rfl

/-! ### Claim C3: the triangle waveform -/

theorem jsMod_one_fract (x : ℚ) (hx : 0 ≤ x) : jsMod x 1 = Int.fract x := by
  unfold jsMod jsTrunc
  rw [div_one, if_pos hx, Int.fract]
  ring

/-- The triangle branch rewritten through `Int.fract`: for `t ≥ 0` the
argument of the remainder is `t/5 + 1/8`. -/
theorem triangle_fract (sin : ℚ → ℚ) (t : ℚ) (ht : 0 ≤ t) :
    targetFunction sin "1" t = 1 - 4 * |Int.fract (t / 5 + 1 / 8) - 1 / 2| := by
  unfold targetFunction
  dsimp only
  rw [if_pos rfl]
  have harg : (t + 0.25 / 0.4) * 0.4 / 2 = t / 5 + 1 / 8 := by
    norm_num
    ring
  rw [harg, jsMod_one_fract _ (by positivity)]
  norm_num

/-- Counterexample to claim C3 as stated: the waveform's value at `t = 0`
is `−0.5`, not `1`, and shifting by `2.5 = 1/f` changes the value
(`targetValue(2.5) = 0.5 ≠ −0.5 = targetValue(0)`), so the function is not
periodic with period `1/f`. -/
theorem triangle_claim_counterexample :
    targetFunction (fun _ => 0) "1" 0 = -0.5
    ∧ targetFunction (fun _ => 0) "1" (0 + 2.5) = 0.5
    ∧ targetFunction (fun _ => 0) "1" (0 + 2.5)
        ≠ targetFunction (fun _ => 0) "1" 0
    ∧ targetFunction (fun _ => 0) "1" 0 ≠ 1 := by
  have h0 : targetFunction (fun _ => 0) "1" 0 = -0.5 := by
    rw [triangle_fract _ 0 le_rfl]
    rw [show (0 : ℚ) / 5 + 1 / 8 = 1 / 8 by norm_num,
        Int.fract_eq_self.mpr ⟨by norm_num, by norm_num⟩,
        show |(1 / 8 : ℚ) - 1 / 2| = 3 / 8 by rw [abs_sub_comm]; rw [abs_of_nonneg] <;> norm_num]
    norm_num
  have h25 : targetFunction (fun _ => 0) "1" (0 + 2.5) = 0.5 := by
    rw [triangle_fract _ (0 + 2.5) (by norm_num)]
    rw [show (0 + 2.5 : ℚ) / 5 + 1 / 8 = 5 / 8 by norm_num,
        Int.fract_eq_self.mpr ⟨by norm_num, by norm_num⟩,
        show |(5 / 8 : ℚ) - 1 / 2| = 1 / 8 by rw [abs_of_nonneg] <;> norm_num]
    norm_num
  exact ⟨h0, h25, by rw [h0, h25]; norm_num, by rw [h0]; norm_num⟩

/-- Claim C3 (amended): the triangle target waveform (functionId `1`)
equals the spec's stated formula
`1 − 4·|((t + 0.25/f)·f / 2) mod 1 − 0.5|` for every `t ≥ 0`, but because
of the extra division by 2 its period is `2/f = 5` seconds
(`targetValue(t + 5, 1) = targetValue(t, 1)`), its value at `t = 0` is
`−0.5`, and it is bounded in `[−1, 1]`. -/
theorem triangle_waveform_props (sin : ℚ → ℚ) :
    (∀ t : ℚ, 0 ≤ t → targetFunction sin "1" t
        = 1 - 4 * |jsMod ((t + 0.25 / (0.4 : ℚ)) * 0.4 / 2) 1 - 0.5|)
    ∧ (∀ t : ℚ, 0 ≤ t →
        targetFunction sin "1" (t + 5) = targetFunction sin "1" t)
    ∧ targetFunction sin "1" 0 = -0.5
    ∧ (∀ t : ℚ, 0 ≤ t → -1 ≤ targetFunction sin "1" t
        ∧ targetFunction sin "1" t ≤ 1) := by
  refine ⟨?_, ?_, ?_, ?_⟩
  · intro t ht
    unfold targetFunction
    dsimp only
    rw [if_pos rfl]
  · intro t ht
    rw [triangle_fract sin t ht, triangle_fract sin (t + 5) (by linarith)]
    have hshift : (t + 5) / 5 + 1 / 8 = t / 5 + 1 / 8 + ((1 : ℤ) : ℚ) := by
      push_cast
      ring
    rw [hshift, Int.fract_add_int]
  · rw [triangle_fract sin 0 le_rfl]
    rw [show (0 : ℚ) / 5 + 1 / 8 = 1 / 8 by norm_num,
        Int.fract_eq_self.mpr ⟨by norm_num, by norm_num⟩,
        show |(1 / 8 : ℚ) - 1 / 2| = 3 / 8 by rw [abs_sub_comm]; rw [abs_of_nonneg] <;> norm_num]
    norm_num
  · intro t ht
    rw [triangle_fract sin t ht]
    have h0 := Int.fract_nonneg (t / 5 + 1 / 8)
    have h1 := Int.fract_lt_one (t / 5 + 1 / 8)
    have habs : |Int.fract (t / 5 + 1 / 8) - 1 / 2| ≤ 1 / 2 :=
      abs_le.mpr ⟨by linarith, by linarith⟩
    have habs0 : (0 : ℚ) ≤ |Int.fract (t / 5 + 1 / 8) - 1 / 2| := abs_nonneg _
    constructor <;> linarith

/-- Witness for C3 (amended): the 5-second period at `t = 0`. -/
theorem triangle_waveform_props_witness :
    targetFunction (fun _ => 0) "1" (0 + 5) = targetFunction (fun _ => 0) "1" 0 :=
  (triangle_waveform_props (fun _ => 0)).2.1 0 le_rfl

/-! ### Claim C4: the time-axis label vector -/

/-- What the spec's words describe: 200 evenly spaced points from `−10` to
`0` inclusive (step `10/199`).  Used only for comparison with the vector
the source actually builds. -/
def timeVectorSpecEven : List ℚ :=
  (List.range 200).map fun i : ℕ => -10 + (i : ℚ) * (10 / 199)

/-- `timeVector` with the constants spelled out. -/
theorem timeVector_explicit :
    timeVector
      = ((List.range 200).map fun i : ℕ => -10 + (i : ℚ) * 0.05).set 199 0 := by
  have hf : (fun i : ℕ => -display_seconds + (i : ℚ) * dt)
      = fun i : ℕ => -10 + (i : ℚ) * 0.05 := by
    funext i
    norm_num [display_seconds, dt_eq]
  unfold timeVector
  dsimp only
  rw [listSize_eq, hf]
  simp

theorem timeVector_getD_197 : timeVector.getD 197 0 = -(0.15 : ℚ) := by
  rw [timeVector_explicit, List.getD_eq_getElem?_getD,
      List.getElem?_set_ne (by norm_num), List.getElem?_map,
      List.getElem?_range (by norm_num)]
  simp
  norm_num

theorem timeVector_getD_198 : timeVector.getD 198 0 = -(0.1 : ℚ) := by
  rw [timeVector_explicit, List.getD_eq_getElem?_getD,
      List.getElem?_set_ne (by norm_num), List.getElem?_map,
      List.getElem?_range (by norm_num)]
  simp
  norm_num

theorem timeVector_getD_199 : timeVector.getD 199 0 = 0 := by
  rw [timeVector_explicit, List.getD_eq_getElem?_getD,
      List.getElem?_set_self (by simp)]
  simp

theorem timeVectorSpecEven_getD_198 :
    timeVectorSpecEven.getD 198 0 = -10 + 198 * (10 / 199 : ℚ) := by
  rw [timeVectorSpecEven, List.getD_eq_getElem?_getD, List.getElem?_map,
      List.getElem?_range (by norm_num)]
  simp

/-- Counterexample to claim C4 as stated: the gap between the last two
entries of `timeVector` is `0.1` while the preceding gaps are `0.05`, so
the points are not evenly spaced, and the vector differs from 200 evenly
spaced points covering `[−10, 0]` (they already disagree at index 198). -/
theorem timeVector_not_evenly_spaced :
    timeVector.getD 199 0 - timeVector.getD 198 0
        ≠ timeVector.getD 198 0 - timeVector.getD 197 0
    ∧ timeVector ≠ timeVectorSpecEven := by
  constructor
  · rw [timeVector_getD_197, timeVector_getD_198, timeVector_getD_199]
    norm_num
  · intro h
    have h198 := timeVectorSpecEven_getD_198
    rw [← h, timeVector_getD_198] at h198
    norm_num at h198

/-- Claim C4 (amended): the static time-axis vector has
`N = displaySeconds·1000/loopMs = 200` entries; entries `0 ≤ i ≤ 198` are
`−10 + i·0.05`, and the final entry is overwritten to exactly `0` (which
leaves a `0.1` gap before it, so the vector is not evenly spaced over
`[−10, 0]`). -/
theorem timeVector_layout :
    timeVector.length = 200
    ∧ listSize = 200
    ∧ timeVector
        = (((List.range 199).map fun i : ℕ => -10 + (i : ℚ) * 0.05) ++ [0]) := by
  refine ⟨?_, listSize_eq, ?_⟩
  · rw [timeVector_explicit]
    simp
  · rw [timeVector_explicit, show (200 : ℕ) = 199 + 1 from rfl,
        List.range_succ, List.map_append,
        List.set_append_right _ _ (by simp)]
    simp

/-! ### Claim C9: the scoring rule -/

/-- Claim C9: the score is a `ℕ` counter; during a tick it changes only in
the modes `humanil` and `closedL-auto`, where it increments by exactly 1
when `|target − output| < margin` (with `target` and `output` the values
the tick computed) and is otherwise unchanged; in `openL` and `closedL` a
tick never changes it; it never decreases across a tick, is untouched by
Start/Stop and countdown handling, and is reset to 0 only by Reset. -/
theorem score_rule_props (sin : ℚ → ℚ) (s : GameState) :
    ((s.game_mode = "humanil" ∨ s.game_mode = "closedL-auto") →
      (gameLoop sin s).score =
        if |(tickCore sin s).1 - (tickCore sin s).2.1| < margin
        then s.score + 1 else s.score)
    ∧ ((s.game_mode = "openL" ∨ s.game_mode = "closedL") →
        (gameLoop sin s).score = s.score)
    ∧ s.score ≤ (gameLoop sin s).score
    ∧ (startStop s).score = s.score
    ∧ (countdownTick s).score = s.score
    ∧ (reset s).score = 0
    ∧ margin = 0.15 := by
  have hchar := gameLoop_score_char sin s
  refine ⟨?_, ?_, ?_, ?_, ?_, ?_, rfl⟩
  · intro hm
    rw [hchar]
    rcases em (|(tickCore sin s).1 - (tickCore sin s).2.1| < margin)
      with habs | habs
    · rw [if_pos ⟨hm, habs⟩, if_pos habs]
    · rw [if_neg (fun hc => habs hc.2), if_neg habs]
  · intro hm
    rw [hchar, if_neg]
    rintro ⟨hm2, -⟩
    rcases hm with h | h <;> rcases hm2 with h2 | h2 <;>
      · rw [h] at h2
        exact absurd h2 (by decide)
  · rw [hchar]
    split_ifs <;> omega
  · unfold startStop
    dsimp only
    split_ifs <;> simp
  · unfold countdownTick
    dsimp only
    split_ifs <;> simp
  · unfold reset
    dsimp only
    split_ifs <;> simp

/-- Witness for C9 in `humanil` mode at the initial state. -/
theorem score_rule_props_witness :
    (gameLoop (fun _ => 0) init).score =
      if |(tickCore (fun _ => 0) init).1 - (tickCore (fun _ => 0) init).2.1|
          < margin
      then init.score + 1 else init.score :=
  (score_rule_props (fun _ => 0) init).1 (Or.inl rfl)

/-! ### Claim C8: timeout after exactly 300 ticks -/

theorem tick_stuck (sin : ℚ → ℚ) (s : GameState) (h : s.intervalId = false) :
    tick sin s = s := by
  unfold tick
  rw [if_neg (by simp [h])]

/-- While the run is live (interval registered, loop flag up, no pending
abort) and fewer than 300 ticks have fired from `t = 0`, the session stays
live and the clock reads `n·dt`. -/
theorem run_inv (sin : ℚ → ℚ) (s0 : GameState) (h0 : s0.t = 0)
    (hla : s0.loop_active = true) (hii : s0.intervalId = true)
    (hab : s0.aborted = false) :
    ∀ n : ℕ, n < 300 →
      ((tick sin)^[n] s0).t = n * dt
      ∧ ((tick sin)^[n] s0).loop_active = true
      ∧ ((tick sin)^[n] s0).intervalId = true
      ∧ ((tick sin)^[n] s0).aborted = false := by
  intro n
  induction n with
  | zero =>
    intro _
    refine ⟨by simp [h0], hla, hii, hab⟩
  | succ n ih =>
    intro hn
    obtain ⟨ht, hl, hi, ha⟩ := ih (by omega)
    rw [Function.iterate_succ_apply']
    set sn := (tick sin)^[n] s0 with hsn
    have htick : tick sin sn = gameLoop sin sn := by
      unfold tick
      rw [if_pos hi]
    have hcast : (n : ℚ) < 299 := by exact_mod_cast (by omega : n < 299)
    have hnot : ¬ (timeout_seconds ≤ sn.t + dt) := by
      rw [ht, dt_eq]
      simp only [timeout_seconds]
      intro hle
      norm_num at hle
      linarith
    rw [htick]
    refine ⟨?_, ?_, ?_, ?_⟩
    · rw [gameLoop_t, ht]
      push_cast
      ring
    · rw [gameLoop_loop_active, tickPre_char, if_neg hnot]
      exact hl
    · rw [gameLoop_intervalId, tickPre_char, if_neg hnot]
      exact hi
    · rw [gameLoop_aborted, tickPre_char, if_neg hnot]
      exact ha

/-- The 300th tick sets `t = 15`, stops the loop, clears the interval and
marks the run finished. -/
theorem run_timeout (sin : ℚ → ℚ) (s0 : GameState) (h0 : s0.t = 0)
    (hla : s0.loop_active = true) (hii : s0.intervalId = true)
    (hab : s0.aborted = false) :
    ((tick sin)^[300] s0).loop_active = false
    ∧ ((tick sin)^[300] s0).intervalId = false
    ∧ ((tick sin)^[300] s0).finished = true
    ∧ ((tick sin)^[300] s0).t = 15 := by
  obtain ⟨ht, hl, hi, ha⟩ := run_inv sin s0 h0 hla hii hab 299 (by omega)
  rw [show (300 : ℕ) = 299 + 1 from rfl, Function.iterate_succ_apply']
  set sn := (tick sin)^[299] s0 with hsn
  have htick : tick sin sn = gameLoop sin sn := by
    unfold tick
    rw [if_pos hi]
  have hto : timeout_seconds ≤ sn.t + dt := by
    rw [ht, dt_eq]
    simp only [timeout_seconds]
    norm_num
  have hstop := setLoopActive_stop { sn with t := sn.t + dt }
    (by simpa using hl) (by simpa using hi)
  rw [htick]
  refine ⟨?_, ?_, ?_, ?_⟩
  · rw [gameLoop_loop_active, tickPre_char, if_pos hto, hstop]
  · rw [gameLoop_intervalId, tickPre_char, if_pos hto, hstop]
  · rw [gameLoop_finished, tickPre_char, if_pos hto, hstop]
    simp [ha]
  · rw [gameLoop_t, ht, dt_eq]
    norm_num

/-- Claim C8: while Running, each tick advances `t` by `dt = 0.05`; when
`t` reaches `timeoutSeconds = 15` the run transitions to Idle marked
Finished, which disables Start until Reset; starting from `t = 0`, exactly
300 ticks execute (the loop is live before each of the first 300 firings
and the interval is cleared by the 300th), and no tick after that changes
the state. -/
theorem timeout_run_props (sin : ℚ → ℚ) (s0 : GameState) (h0 : s0.t = 0)
    (hla : s0.loop_active = true) (hii : s0.intervalId = true)
    (hab : s0.aborted = false) :
    (∀ s : GameState, s.intervalId = true → (tick sin s).t = s.t + dt)
    ∧ (∀ n : ℕ, n < 300 → ((tick sin)^[n] s0).loop_active = true
        ∧ ((tick sin)^[n] s0).intervalId = true
        ∧ ((tick sin)^[n] s0).t = n * dt)
    ∧ ((tick sin)^[300] s0).loop_active = false
    ∧ ((tick sin)^[300] s0).finished = true
    ∧ ((tick sin)^[300] s0).t = 15
    ∧ startEnabled ((tick sin)^[300] s0) = false
    ∧ startEnabled (reset ((tick sin)^[300] s0)) = true
    ∧ (∀ k : ℕ, (tick sin)^[300 + k] s0 = (tick sin)^[300] s0)
    ∧ timeout_seconds = 15 ∧ dt = 0.05 := by
  obtain ⟨hl3, hi3, hf3, ht3⟩ := run_timeout sin s0 h0 hla hii hab
  refine ⟨?_, ?_, hl3, hf3, ht3, ?_, ?_, ?_, rfl, dt_eq⟩
  · intro s hi
    unfold tick
    rw [if_pos hi, gameLoop_t]
  · intro n hn
    obtain ⟨ht, hl, hi, _⟩ := run_inv sin s0 h0 hla hii hab n hn
    exact ⟨hl, hi, ht⟩
  · unfold startEnabled
    rw [hf3]
    rfl
  · unfold startEnabled
    rw [show (reset ((tick sin)^[300] s0)).finished = false from rfl]
    rfl
  · intro k
    induction k with
    | zero => rfl
    | succ k ih =>
      rw [show 300 + (k + 1) = (300 + k) + 1 from rfl,
          Function.iterate_succ_apply', ih, tick_stuck sin _ hi3]

/-- Witness for C8 at the reachable running state (fresh run, `t = 0`). -/
theorem timeout_run_props_witness :
    ((tick (fun _ => 0))^[300] runningState).finished = true :=
  (timeout_run_props (fun _ => 0) runningState rfl (by decide) (by decide)
    (by decide)).2.2.2.1

end HumanIL
